import Mathlib

/-!
The move-semantics demo harness (`move-semantics-demo/demo.cc`).

A shallow embedding of the demo program and the properties of it that are
established here.

* The catalog of structs (lines 16-161 and 195-202) is embedded as class
  descriptions `Ty`: for each struct the way each of its special member
  functions is declared, and the types of its data members.
* `std::is_copy_constructible` and `std::is_move_constructible` are embedded as
  functions on class descriptions, following the rules of the C++ standard for
  implicitly declared and defaulted copy/move constructors.
* `std::vector` is embedded as a list of elements together with a capacity; the
  implementation-defined growth policy is a parameter (`VectorImpl`).
* `testType` (lines 164-190) and `main` (lines 205-230) are embedded over a
  configuration `Config` that stands for the two constants of namespace `C`.
  A run of `testType` is the sequence of container operations the two guarded
  statements perform and the vector they leave; whether `push_back` and
  `reserve` can be instantiated for an element type that lacks a capability is
  not part of the embedding.
-/

namespace MoveSemanticsDemo

/-! ## Class descriptions -/

/-- How a special member function appears in a class definition: not declared
by the user, declared `= default`, given a body by the user, or declared
`= delete`. -/
inductive Decl where
  | notDeclared
  | defaulted
  | userProvided
  | deleted
  deriving DecidableEq, Repr

/-- The five special member functions that decide copyability and moveability
of a class. -/
structure SpecialMembers where
  copyCtor : Decl
  moveCtor : Decl
  copyAssign : Decl
  moveAssign : Decl
  dtor : Decl
  deriving DecidableEq, Repr

/-- A type as far as the classification needs it: a scalar (a pointer or an
integer), or a class with its special member functions and the types of its
non-static data members. -/
inductive Ty where
  | scalar (name : String)
  | cls (name : String) (sm : SpecialMembers) (members : List Ty)

/-- The identity of a type, as printed by the harness. -/
def Ty.name : Ty → String
  | .scalar n => n
  | .cls n _ _ => n

/-- Whether a move constructor takes part in overload resolution, and if it does
whether it can be called. -/
inductive Candidate where
  | absent
  | usable
  | deleted
  deriving DecidableEq, Repr

/-! ## The standard's rules for destructors and copy/move constructors -/

/-- The destructor of a class with the given declaration is usable: a
user-provided one is, a deleted one is not, and an implicit or defaulted one is
unless some member cannot be destroyed. -/
def dtorUsable (sm : SpecialMembers) (membersDestructible : Bool) : Bool :=
  match sm.dtor with
  | .userProvided => true
  | .deleted => false
  | .defaulted => membersDestructible
  | .notDeclared => membersDestructible

/-- The copy constructor of a class is usable (declared and not deleted).
A user-provided one is usable and one declared `= delete` is not.  A defaulted
one is defined as deleted when some member cannot be copy-constructed.  When
none is declared, one is declared implicitly: as deleted if the class declares
a move constructor or a move assignment operator, as defaulted otherwise. -/
def copyCtorStatus (sm : SpecialMembers) (membersCopyable : Bool) : Bool :=
  match sm.copyCtor with
  | .userProvided => true
  | .deleted => false
  | .defaulted => membersCopyable
  | .notDeclared =>
    if sm.moveCtor != .notDeclared || sm.moveAssign != .notDeclared then false
    else membersCopyable

/-- The move constructor of a class as overload resolution sees it.
A user-provided one is usable, one declared `= delete` is a deleted candidate.
A defaulted one that would have to be defined as deleted, because some member
cannot be constructed from an rvalue, is ignored by overload resolution.  When
none is declared, one is declared implicitly as defaulted only if the class
declares no copy constructor, no copy assignment operator, no move assignment
operator and no destructor. -/
def moveCtorStatus (sm : SpecialMembers) (membersMovable : Bool) : Candidate :=
  match sm.moveCtor with
  | .userProvided => .usable
  | .deleted => .deleted
  | .defaulted => if membersMovable then .usable else .absent
  | .notDeclared =>
    if sm.copyCtor == .notDeclared && sm.copyAssign == .notDeclared
        && sm.moveAssign == .notDeclared && sm.dtor == .notDeclared then
      if membersMovable then .usable else .absent
    else .absent

mutual
/-- The trait `std::is_destructible<T>`. -/
def is_destructible : Ty → Bool
  | .scalar _ => true
  | .cls _ sm ms => dtorUsable sm (allDestructible ms)
/-- Every type of the list is destructible. -/
def allDestructible : List Ty → Bool
  | [] => true
  | t :: ts => is_destructible t && allDestructible ts
end

mutual
/-- Initialisation of a `T` from a `const T &` selects a constructor that can
be called: the copy constructor, the only candidate, is usable. -/
def copyInit : Ty → Bool
  | .scalar _ => true
  | .cls _ sm ms => copyCtorStatus sm (allCopyable ms)
/-- Every type of the list can be copy-constructed as a member. -/
def allCopyable : List Ty → Bool
  | [] => true
  | t :: ts => (is_destructible t && copyInit t) && allCopyable ts
end

mutual
/-- Initialisation of a `T` from an rvalue `T &&` selects a constructor that can
be called.  A move constructor that takes part in overload resolution is the
better match and decides; when there is none the copy constructor, whose
`const T &` parameter binds to an rvalue, is selected. -/
def moveInit : Ty → Bool
  | .scalar _ => true
  | .cls _ sm ms =>
    match moveCtorStatus sm (allMovable ms) with
    | .usable => true
    | .deleted => false
    | .absent => copyCtorStatus sm (allCopyable ms)
/-- Every type of the list can be constructed from an rvalue as a member. -/
def allMovable : List Ty → Bool
  | [] => true
  | t :: ts => (is_destructible t && moveInit t) && allMovable ts
end

/-- The trait `std::is_copy_constructible<T>`, that is
`std::is_constructible<T, const T &>`: the variable definition
`T t(declval<const T &>())` is well formed. -/
def is_copy_constructible (T : Ty) : Bool :=
  is_destructible T && copyInit T

/-- The trait `std::is_move_constructible<T>`, that is
`std::is_constructible<T, T &&>`: the variable definition
`T t(declval<T &&>())` is well formed. -/
def is_move_constructible (T : Ty) : Bool :=
  is_destructible T && moveInit T

/-- The move constructor of a type as overload resolution sees it (a scalar is
moved by a plain transfer of its value). -/
def moveCtor : Ty → Candidate
  | .scalar _ => .usable
  | .cls _ sm ms => moveCtorStatus sm (allMovable ms)

/-- Reading of the specification's words for the relocatable fact: a value
of `T` can be constructed by transferring the guts of a source value without
performing the work a duplication would require, that is `T` can be destroyed and
has a move constructor that can be called. -/
def cheapTransfer (T : Ty) : Bool :=
  is_destructible T && decide (moveCtor T = .usable)

/-! ## The catalog (lines 16-161 and 195-202) -/

/-- A class none of whose special member functions is declared. -/
def implicitMembers : SpecialMembers :=
  ⟨.notDeclared, .notDeclared, .notDeclared, .notDeclared, .notDeclared⟩

/-- The member type `char *`. -/
def charPtr : Ty := .scalar "char *"

/-- The member type `std::size_t`. -/
def size_t : Ty := .scalar "std::size_t"

/-- The library type `std::unique_ptr< std::string >`: copy operations deleted,
move operations and destructor user-provided. -/
def uniquePtrString : Ty :=
  .cls "std::unique_ptr< std::string >"
    ⟨.deleted, .userProvided, .deleted, .userProvided, .userProvided⟩ []

/-- The library type `std::string`: all five special members user-provided. -/
def stdString : Ty :=
  .cls "std::string"
    ⟨.userProvided, .userProvided, .userProvided, .userProvided, .userProvided⟩ []

/-- The struct `LegacyCopyable` (lines 16-47): destructor, copy constructor and
copy assignment operator have bodies, no move operation is declared. -/
def LegacyCopyable : Ty :=
  .cls "LegacyCopyable"
    ⟨.userProvided, .notDeclared, .userProvided, .notDeclared, .userProvided⟩
    [charPtr, size_t]

/-- The struct of lines 49-53. -/
def ImplicitlyMoveOnlyWithCopyable : Ty :=
  .cls "ImplicitlyMoveOnlyWithCopyable" implicitMembers [uniquePtrString, stdString]

/-- The struct of lines 55-58. -/
def ImplicitlyMoveOnlyWithoutCopyable : Ty :=
  .cls "ImplicitlyMoveOnlyWithoutCopyable" implicitMembers [uniquePtrString]

/-- The struct of lines 60-65. -/
def ImplicitlyMoveOnlyWithLegacyCopyable : Ty :=
  .cls "ImplicitlyMoveOnlyWithLegacyCopyable" implicitMembers
    [uniquePtrString, stdString, LegacyCopyable]

/-- Special members of the `ExplicitlyMoveable...` structs: move constructor and
move assignment operator `= default`. -/
def moveableMembers : SpecialMembers :=
  ⟨.notDeclared, .defaulted, .notDeclared, .defaulted, .notDeclared⟩

/-- The struct of lines 67-75. -/
def ExplicitlyMoveableWithCopyable : Ty :=
  .cls "ExplicitlyMoveableWithCopyable" moveableMembers [uniquePtrString, stdString]

/-- The struct of lines 77-84. -/
def ExplicitlyMoveableWithoutCopyable : Ty :=
  .cls "ExplicitlyMoveableWithoutCopyable" moveableMembers [uniquePtrString]

/-- The struct of lines 86-95. -/
def ExplicitlyMoveableWithLegacyCopyable : Ty :=
  .cls "ExplicitlyMoveableWithLegacyCopyable" moveableMembers
    [uniquePtrString, stdString, LegacyCopyable]

/-- Special members of the `ExplicitlyCopyable...` structs: copy constructor and
copy assignment operator `= default`. -/
def copyableMembers : SpecialMembers :=
  ⟨.defaulted, .notDeclared, .defaulted, .notDeclared, .notDeclared⟩

/-- The struct of lines 97-105. -/
def ExplicitlyCopyableWithCopyable : Ty :=
  .cls "ExplicitlyCopyableWithCopyable" copyableMembers [uniquePtrString, stdString]

/-- The struct of lines 107-114. -/
def ExplicitlyCopyableWithoutCopyable : Ty :=
  .cls "ExplicitlyCopyableWithoutCopyable" copyableMembers [uniquePtrString]

/-- The struct of lines 116-125. -/
def ExplicitlyCopyableWithLegacyCopyable : Ty :=
  .cls "ExplicitlyCopyableWithLegacyCopyable" copyableMembers
    [uniquePtrString, stdString, LegacyCopyable]

/-- Special members of the `ExplicitlyCopyableAndMoveable...` structs: the
copy and the move constructor and both assignment operators `= default`. -/
def copyableAndMoveableMembers : SpecialMembers :=
  ⟨.defaulted, .defaulted, .defaulted, .defaulted, .notDeclared⟩

/-- The struct of lines 127-137. -/
def ExplicitlyCopyableAndMoveableWithCopyable : Ty :=
  .cls "ExplicitlyCopyableAndMoveableWithCopyable" copyableAndMoveableMembers
    [uniquePtrString, stdString]

/-- The struct of lines 139-148. -/
def ExplicitlyCopyableAndMoveableWithoutCopyable : Ty :=
  .cls "ExplicitlyCopyableAndMoveableWithoutCopyable" copyableAndMoveableMembers
    [uniquePtrString]

/-- The struct of lines 150-161. -/
def ExplicitlyCopyableAndMoveableWithLegacyCopyable : Ty :=
  .cls "ExplicitlyCopyableAndMoveableWithLegacyCopyable" copyableAndMoveableMembers
    [uniquePtrString, stdString, LegacyCopyable]

/-- The struct `Experiment` (lines 195-202): copy constructor and copy
assignment operator `= default`, one `std::string` member. -/
def Experiment : Ty :=
  .cls "Experiment" copyableMembers [stdString]

/-- The types under test in the order of their declaration in the file: the
thirteen structs of the first unnamed namespace, then `Experiment`. -/
def catalog : List Ty :=
  [ LegacyCopyable,
    ImplicitlyMoveOnlyWithCopyable,
    ImplicitlyMoveOnlyWithoutCopyable,
    ImplicitlyMoveOnlyWithLegacyCopyable,
    ExplicitlyMoveableWithCopyable,
    ExplicitlyMoveableWithoutCopyable,
    ExplicitlyMoveableWithLegacyCopyable,
    ExplicitlyCopyableWithCopyable,
    ExplicitlyCopyableWithoutCopyable,
    ExplicitlyCopyableWithLegacyCopyable,
    ExplicitlyCopyableAndMoveableWithCopyable,
    ExplicitlyCopyableAndMoveableWithoutCopyable,
    ExplicitlyCopyableAndMoveableWithLegacyCopyable,
    Experiment ]

/-! ## The container `std::vector` -/

/-- The choices the standard leaves to an implementation of `std::vector`: the
capacity it proposes when a `push_back` finds the store full (from the old
capacity), and the capacity it proposes for a growing `reserve( n )`. -/
structure VectorImpl where
  grow : Nat → Nat
  reserveCap : Nat → Nat

/-- The policy of libstdc++: a full store of capacity `c` grows to
`c + max( c, 1 )`, and `reserve( n )` allocates exactly `n`. -/
def libstdcxx : VectorImpl :=
  ⟨fun c => c + max c 1, fun n => n⟩

/-- A `std::vector< Element >`: the elements in index order and the capacity of
the backing store. -/
structure StdVector (α : Type) where
  elems : List α
  cap : Nat
  deriving DecidableEq, Repr

namespace StdVector

variable {α : Type}

/-- The default-constructed vector of line 168: no element and no storage. -/
def empty : StdVector α :=
  ⟨[], 0⟩

/-- The member `size()`. -/
def size (v : StdVector α) : Nat :=
  v.elems.length

/-- The member `capacity()`. -/
def capacity (v : StdVector α) : Nat :=
  v.cap

/-- Reallocation: every existing element is constructed, in index order, at
the end of the newly allocated store from the element of the old store. -/
def relocate (old : List α) : List α :=
  old.foldl (fun store x => store ++ [x]) []

/-- The member `reserve( n )`: no effect unless `n` exceeds the capacity;
otherwise the elements are relocated to a store of capacity at least `n`. -/
def reserve (impl : VectorImpl) (v : StdVector α) (n : Nat) : StdVector α :=
  if n > v.capacity then ⟨relocate v.elems, max (impl.reserveCap n) n⟩ else v

/-- The member `push_back( x )`: the element is appended; when the store is
full the existing elements are first relocated to a larger store. -/
def push_back (impl : VectorImpl) (v : StdVector α) (x : α) : StdVector α :=
  if v.size < v.capacity then ⟨v.elems ++ [x], v.cap⟩
  else ⟨relocate v.elems ++ [x], max (impl.grow v.cap) (v.size + 1)⟩

end StdVector

/-! ## The harness `testType` (lines 164-190) -/

/-- The two constants of namespace `C` (lines 12-13). -/
structure Config where
  enableFailingCases : Bool
  disableAllCases : Bool
  deriving DecidableEq, Repr

/-- The values the constants have in the file: both `false`. -/
def C : Config :=
  ⟨false, false⟩

/-- A container operation the harness performs. -/
inductive Op (α : Type) where
  | push_back (x : α)
  | reserve (n : Nat)
  deriving DecidableEq, Repr

/-- The operation is a `push_back`. -/
def Op.isPush {α : Type} : Op α → Bool
  | .push_back _ => true
  | .reserve _ => false

/-- The state of one run of the harness: the local `vector`, and the record of
the container operations performed on it so far, oldest first. -/
structure Run (α : Type) where
  vector : StdVector α
  trace : List (Op α)
  deriving DecidableEq, Repr

/-- The state at line 168: a fresh empty vector, nothing performed yet. -/
def Run.start {α : Type} : Run α :=
  ⟨StdVector.empty, []⟩

/-- The constant `canWork` of lines 170-171. -/
def canWork (T : Ty) : Bool :=
  is_copy_constructible T && is_move_constructible T

/-- The body of the loop, lines 174-178; `e` is the value of `Element()`. -/
def loopBody {α : Type} (impl : VectorImpl) (cfg : Config) (T : Ty) (e : α)
    (r : Run α) : Run α :=
  if !cfg.disableAllCases && (canWork T || cfg.enableFailingCases) then
    ⟨r.vector.push_back impl e, r.trace ++ [.push_back e]⟩
  else r

/-- The statement `for( int i= 0; i < n; ++i ) body` for a body that does not
read `i`: the body is executed `n` times. -/
def forLoop {σ : Type} (body : σ → σ) : Nat → σ → σ
  | 0, s => s
  | n + 1, s => forLoop body n (body s)

/-- Phase A, the loop of lines 173-179. -/
def phaseA {α : Type} (impl : VectorImpl) (cfg : Config) (T : Ty) (e : α)
    (r : Run α) : Run α :=
  forLoop (loopBody impl cfg T e) 100 r

/-- Phase B, lines 181-184. -/
def phaseB {α : Type} (impl : VectorImpl) (cfg : Config) (T : Ty)
    (r : Run α) : Run α :=
  if !cfg.disableAllCases && (canWork T || !cfg.enableFailingCases) then
    ⟨r.vector.reserve impl (r.vector.capacity * 2),
      r.trace ++ [.reserve (r.vector.capacity * 2)]⟩
  else r

/-- The line printed at the end of the harness, lines 186-189; the
implementation-defined `typeid( Element ).name()` is the name of the type. -/
def report (T : Ty) : String :=
  "It is " ++ (if is_copy_constructible T then "" else "not ") ++ "copyable and "
    ++ "is " ++ (if is_move_constructible T then "" else "not ") ++ "moveable: "
    ++ T.name ++ "\n"

/-- The function template `testType< Element >()`: the state of the
vector and the operations performed when the output is reached, and the line
printed. -/
def testType {α : Type} (impl : VectorImpl) (cfg : Config) (T : Ty) (e : α) :
    Run α × String :=
  (phaseB impl cfg T (phaseA impl cfg T e Run.start), report T)

/-! ## The driver `main` (lines 205-230) -/

/-- The function `main`: the instantiations `testType< T >()` it calls, in the
order of the calls. -/
def main (cfg : Config) : List Ty :=
  [LegacyCopyable,
   ImplicitlyMoveOnlyWithCopyable,
   ImplicitlyMoveOnlyWithoutCopyable,
   ImplicitlyMoveOnlyWithLegacyCopyable,
   ExplicitlyMoveableWithCopyable,
   ExplicitlyMoveableWithoutCopyable,
   ExplicitlyMoveableWithLegacyCopyable]
  ++ (if cfg.enableFailingCases then
        [ExplicitlyCopyableWithCopyable,
         ExplicitlyCopyableWithoutCopyable,
         ExplicitlyCopyableWithLegacyCopyable]
      else [])
  ++ [ExplicitlyCopyableAndMoveableWithCopyable,
      ExplicitlyCopyableAndMoveableWithoutCopyable,
      ExplicitlyCopyableAndMoveableWithLegacyCopyable,
      Experiment]

/-- The output of the program: one line per call of the harness. -/
def mainOutput (cfg : Config) : List String :=
  (main cfg).map report

theorem catalog_classification :
    catalog.map (fun T => (T.name, is_copy_constructible T, is_move_constructible T))
      = [("LegacyCopyable", true, true),
         ("ImplicitlyMoveOnlyWithCopyable", false, true),
         ("ImplicitlyMoveOnlyWithoutCopyable", false, true),
         ("ImplicitlyMoveOnlyWithLegacyCopyable", false, true),
         ("ExplicitlyMoveableWithCopyable", false, true),
         ("ExplicitlyMoveableWithoutCopyable", false, true),
         ("ExplicitlyMoveableWithLegacyCopyable", false, true),
         ("ExplicitlyCopyableWithCopyable", false, false),
         ("ExplicitlyCopyableWithoutCopyable", false, false),
         ("ExplicitlyCopyableWithLegacyCopyable", false, false),
         ("ExplicitlyCopyableAndMoveableWithCopyable", false, true),
         ("ExplicitlyCopyableAndMoveableWithoutCopyable", false, true),
         ("ExplicitlyCopyableAndMoveableWithLegacyCopyable", false, true),
         ("Experiment", true, true)] := by
  decide

/-! ## Facts about the container -/

theorem StdVector.relocate_aux {α : Type} (old store : List α) :
    old.foldl (fun store x => store ++ [x]) store = store ++ old := by
  induction old generalizing store with
  | nil => simp
  | cons x xs ih => simp [ih]

theorem StdVector.relocate_eq {α : Type} (old : List α) :
    StdVector.relocate old = old := by
  simp [StdVector.relocate, StdVector.relocate_aux]

theorem StdVector.reserve_elems {α : Type} (impl : VectorImpl) (v : StdVector α) (n : Nat) :
    (v.reserve impl n).elems = v.elems := by
  unfold StdVector.reserve
  split <;> simp [StdVector.relocate_eq]

theorem StdVector.push_back_elems {α : Type} (impl : VectorImpl) (v : StdVector α) (x : α) :
    (v.push_back impl x).elems = v.elems ++ [x] := by
  unfold StdVector.push_back
  split <;> simp [StdVector.relocate_eq]

theorem StdVector.push_back_fits {α : Type} (impl : VectorImpl) (v : StdVector α) (x : α) :
    (v.push_back impl x).size ≤ (v.push_back impl x).capacity := by
  unfold StdVector.push_back
  split
  · simp only [StdVector.size, StdVector.capacity, List.length_append, List.length_singleton] at *
    omega
  · simp only [StdVector.size, StdVector.capacity, List.length_append, List.length_singleton,
      StdVector.relocate_eq] at *
    omega

theorem StdVector.reserve_capacity_ge {α : Type} (impl : VectorImpl) (v : StdVector α) (n : Nat) :
    v.capacity ≤ (v.reserve impl n).capacity ∧ n ≤ (v.reserve impl n).capacity := by
  unfold StdVector.reserve
  split
  · simp only [StdVector.capacity] at *
    omega
  · simp only [StdVector.capacity] at *
    omega

theorem StdVector.reserve_noop {α : Type} (impl : VectorImpl) (v : StdVector α) (n : Nat)
    (h : n ≤ v.capacity) : v.reserve impl n = v := by
  unfold StdVector.reserve
  rw [if_neg (by omega)]

/-! ## Facts about the loop -/

theorem forLoop_id {σ : Type} (body : σ → σ) (hbody : ∀ s, body s = s) (n : Nat) (s : σ) :
    forLoop body n s = s := by
  induction n generalizing s with
  | zero => rfl
  | succ n ih => simp [forLoop, hbody, ih]

theorem loopBody_skip {α : Type} (impl : VectorImpl) (cfg : Config) (T : Ty) (e : α)
    (h : (!cfg.disableAllCases && (canWork T || cfg.enableFailingCases)) = false) (r : Run α) :
    loopBody impl cfg T e r = r := by
  simp [loopBody, h]

theorem loopBody_run {α : Type} (impl : VectorImpl) (cfg : Config) (T : Ty) (e : α)
    (h : (!cfg.disableAllCases && (canWork T || cfg.enableFailingCases)) = true) (r : Run α) :
    loopBody impl cfg T e r = ⟨r.vector.push_back impl e, r.trace ++ [.push_back e]⟩ := by
  simp [loopBody, h]

theorem forLoop_skip {α : Type} (impl : VectorImpl) (cfg : Config) (T : Ty) (e : α)
    (h : (!cfg.disableAllCases && (canWork T || cfg.enableFailingCases)) = false)
    (k : Nat) (r : Run α) :
    forLoop (loopBody impl cfg T e) k r = r :=
  forLoop_id _ (loopBody_skip impl cfg T e h) k r

theorem forLoop_run {α : Type} (impl : VectorImpl) (cfg : Config) (T : Ty) (e : α)
    (h : (!cfg.disableAllCases && (canWork T || cfg.enableFailingCases)) = true)
    (k : Nat) (r : Run α) :
    (forLoop (loopBody impl cfg T e) k r).vector.elems = r.vector.elems ++ List.replicate k e
    ∧ (forLoop (loopBody impl cfg T e) k r).trace
        = r.trace ++ List.replicate k (Op.push_back e)
    ∧ (r.vector.size ≤ r.vector.capacity →
        (forLoop (loopBody impl cfg T e) k r).vector.size
          ≤ (forLoop (loopBody impl cfg T e) k r).vector.capacity) := by
  induction k generalizing r with
  | zero => simp [forLoop]
  | succ k ih =>
    have hr := ih (loopBody impl cfg T e r)
    simp only [forLoop]
    rw [loopBody_run impl cfg T e h] at hr ⊢
    refine ⟨?_, ?_, ?_⟩
    · rw [hr.1]; simp [StdVector.push_back_elems, List.replicate_succ]
    · rw [hr.2.1]; simp [List.replicate_succ]
    · intro _
      exact hr.2.2 (StdVector.push_back_fits impl r.vector e)


theorem phaseA_skip {α : Type} (impl : VectorImpl) (cfg : Config) (T : Ty) (e : α)
    (h : (!cfg.disableAllCases && (canWork T || cfg.enableFailingCases)) = false) (r : Run α) :
    phaseA impl cfg T e r = r :=
  forLoop_skip impl cfg T e h 100 r

theorem phaseA_run {α : Type} (impl : VectorImpl) (cfg : Config) (T : Ty) (e : α)
    (h : (!cfg.disableAllCases && (canWork T || cfg.enableFailingCases)) = true) :
    (phaseA impl cfg T e Run.start).vector.elems = List.replicate 100 e
    ∧ (phaseA impl cfg T e Run.start).trace = List.replicate 100 (Op.push_back e)
    ∧ (phaseA impl cfg T e Run.start).vector.size
        ≤ (phaseA impl cfg T e Run.start).vector.capacity := by
  have hk := forLoop_run impl cfg T e h 100 (Run.start)
  refine ⟨?_, ?_, ?_⟩
  · simpa [phaseA, Run.start, StdVector.empty] using hk.1
  · simpa [phaseA, Run.start] using hk.2.1
  · exact hk.2.2 (by simp [Run.start, StdVector.empty, StdVector.size, StdVector.capacity])

theorem phaseB_skip {α : Type} (impl : VectorImpl) (cfg : Config) (T : Ty)
    (h : (!cfg.disableAllCases && (canWork T || !cfg.enableFailingCases)) = false) (r : Run α) :
    phaseB impl cfg T r = r := by
  simp [phaseB, h]

theorem phaseB_run {α : Type} (impl : VectorImpl) (cfg : Config) (T : Ty)
    (h : (!cfg.disableAllCases && (canWork T || !cfg.enableFailingCases)) = true) (r : Run α) :
    phaseB impl cfg T r
      = ⟨r.vector.reserve impl (r.vector.capacity * 2),
          r.trace ++ [.reserve (r.vector.capacity * 2)]⟩ := by
  simp [phaseB, h]

theorem phaseB_elems {α : Type} (impl : VectorImpl) (cfg : Config) (T : Ty) (r : Run α) :
    (phaseB impl cfg T r).vector.elems = r.vector.elems := by
  unfold phaseB
  split <;> simp [StdVector.reserve_elems]

theorem filter_isPush_replicate {α : Type} (e : α) (k : Nat) :
    (List.replicate k (Op.push_back e)).filter Op.isPush = List.replicate k (Op.push_back e) := by
  induction k with
  | zero => rfl
  | succ k ih => simp [List.replicate_succ, List.filter_cons, Op.isPush, ih]

theorem phaseA_gate_facts {α : Type} (impl : VectorImpl) (cfg : Config) (T : Ty)
    (e : α) (g : Bool)
    (hg : (!cfg.disableAllCases && (canWork T || cfg.enableFailingCases)) = g) :
    (∀ k : Nat, (forLoop (loopBody impl cfg T e) k Run.start).vector.elems
        = if g = true
          then List.replicate k e else [])
    ∧ (phaseA impl cfg T e Run.start).trace
        = (if g = true
          then List.replicate 100 (Op.push_back e) else [])
    ∧ (phaseA impl cfg T e Run.start).vector.elems
        = (if g = true
          then List.replicate 100 e else [])
    ∧ (if g = true
        then (phaseA impl cfg T e Run.start).vector.size = 100
        else phaseA impl cfg T e Run.start = Run.start)
    ∧ (testType impl cfg T e).1.trace.filter Op.isPush
        = (if g = true
          then List.replicate 100 (Op.push_back e) else [])
    ∧ (testType impl cfg T e).1.vector.elems
        = (if g = true
          then List.replicate 100 e else []) := by
  subst hg
  cases h : (!cfg.disableAllCases && (canWork T || cfg.enableFailingCases))
  · have hA : phaseA impl cfg T e Run.start = Run.start := phaseA_skip impl cfg T e h _
    have hT : (testType impl cfg T e).1.vector.elems = [] := by
      simp only [testType, phaseB_elems, hA]; rfl
    have hP : (testType impl cfg T e).1.trace.filter Op.isPush = [] := by
      simp only [testType, hA]
      unfold phaseB
      split <;> simp [Run.start, Op.isPush]
    refine ⟨fun k => ?_, ?_, ?_, ?_, ?_, ?_⟩
    · rw [forLoop_skip impl cfg T e h k]; simp [Run.start, StdVector.empty]
    · rw [hA]; rfl
    · rw [hA]; rfl
    · simpa using hA
    · simpa using hP
    · simpa using hT
  · have hA := phaseA_run impl cfg T e h
    have hT : (testType impl cfg T e).1.vector.elems = List.replicate 100 e := by
      simp [testType, phaseB_elems, hA.1]
    have hP : (testType impl cfg T e).1.trace.filter Op.isPush
        = List.replicate 100 (Op.push_back e) := by
      simp only [testType]
      unfold phaseB
      split
      · simp only [List.filter_append, hA.2.1, filter_isPush_replicate]
        simp [Op.isPush]
      · simp only [hA.2.1, filter_isPush_replicate]
    refine ⟨fun k => ?_, ?_, ?_, ?_, ?_, ?_⟩
    · have hk := (forLoop_run impl cfg T e h k Run.start).1
      simpa [Run.start, StdVector.empty] using hk
    · simpa using hA.2.1
    · simpa using hA.1
    · simp [StdVector.size, hA.1]
    · simpa using hP
    · simpa using hT

/-- C4: under the configuration of the file (both flags `false`), a type that
is copy-constructible and move-constructible goes through both phases: the run
consists of 100 `push_back` followed by the one `reserve`, and the vector ends
with exactly 100 elements, each the value `Element()`, and a capacity of at
least 100. -/
theorem default_config_capable_type {α : Type} (impl : VectorImpl) (T : Ty) (e : α)
    (hc : is_copy_constructible T = true) (hm : is_move_constructible T = true) :
    (testType impl C T e).1.trace
        = List.replicate 100 (Op.push_back e)
          ++ [Op.reserve ((phaseA impl C T e Run.start).vector.capacity * 2)]
    ∧ (testType impl C T e).1.vector.elems = List.replicate 100 e
    ∧ (testType impl C T e).1.vector.size = 100
    ∧ 100 ≤ (testType impl C T e).1.vector.capacity := by
  have hgA : (!C.disableAllCases && (canWork T || C.enableFailingCases)) = true := by
    simp [C, canWork, hc, hm]
  have hgB : (!C.disableAllCases && (canWork T || !C.enableFailingCases)) = true := by
    simp [C]
  have hA := phaseA_run impl C T e hgA
  have hsize : (phaseA impl C T e Run.start).vector.size = 100 := by
    simp [StdVector.size, hA.1]
  have hcap := (StdVector.reserve_capacity_ge impl (phaseA impl C T e Run.start).vector
    ((phaseA impl C T e Run.start).vector.capacity * 2)).1
  have hfit := hA.2.2
  refine ⟨?_, ?_, ?_, ?_⟩
  · simp only [testType, phaseB_run impl C T hgB, hA.2.1]
  · simp only [testType, phaseB_elems, hA.1]
  · simp only [testType, StdVector.size, phaseB_elems, hA.1, List.length_replicate]
  · simp only [testType, phaseB_run impl C T hgB]
    omega

/-- C4, witness: `LegacyCopyable` with the growth policy of libstdc++. -/
theorem default_config_capable_type_witness :
    is_copy_constructible LegacyCopyable = true
    ∧ is_move_constructible LegacyCopyable = true
    ∧ ((testType libstdcxx C LegacyCopyable ()).1.trace
        = List.replicate 100 (Op.push_back ())
          ++ [Op.reserve ((phaseA libstdcxx C LegacyCopyable () Run.start).vector.capacity * 2)]
      ∧ (testType libstdcxx C LegacyCopyable ()).1.vector.elems = List.replicate 100 ()
      ∧ (testType libstdcxx C LegacyCopyable ()).1.vector.size = 100
      ∧ 100 ≤ (testType libstdcxx C LegacyCopyable ()).1.vector.capacity) :=
  ⟨by decide, by decide,
    default_config_capable_type libstdcxx LegacyCopyable () (by decide) (by decide)⟩

/-- C5: with `disableAllCases = true`, whatever the type and whatever
`enableFailingCases`, neither phase is performed: no container operation takes
place and the vector is at the end the one that was constructed, with size 0 and
the capacity it had at construction. -/
theorem disabled_performs_nothing {α : Type} (impl : VectorImpl)
    (enableFailingCases : Bool) (T : Ty) (e : α) :
    (testType impl ⟨enableFailingCases, true⟩ T e).1.trace = []
    ∧ phaseA impl ⟨enableFailingCases, true⟩ T e Run.start = Run.start
    ∧ (testType impl ⟨enableFailingCases, true⟩ T e).1 = Run.start
    ∧ (testType impl ⟨enableFailingCases, true⟩ T e).1.vector.size = 0
    ∧ (testType impl ⟨enableFailingCases, true⟩ T e).1.vector.capacity
        = (StdVector.empty : StdVector α).capacity := by
  have hA : phaseA impl ⟨enableFailingCases, true⟩ T e Run.start = Run.start :=
    phaseA_skip impl _ T e (by simp) _
  have hB : (testType impl ⟨enableFailingCases, true⟩ T e).1 = Run.start := by
    simp only [testType, hA]
    exact phaseB_skip impl _ T (by simp) _
  refine ⟨?_, hA, hB, ?_, ?_⟩
  · rw [hB]; rfl
  · rw [hB]; rfl
  · rw [hB]; rfl

/-- C6: under the configuration of the file, for a type that is
move-constructible but not copy-constructible, Phase A is skipped and the vector
stays empty; Phase B is then performed and its request is `reserve( 0 * 2 )`,
which has no effect: the vector still has size 0 and the capacity it had. -/
theorem default_config_move_only_type {α : Type} (impl : VectorImpl) (T : Ty) (e : α)
    (_hm : is_move_constructible T = true) (hc : is_copy_constructible T = false) :
    phaseA impl C T e Run.start = Run.start
    ∧ (testType impl C T e).1.trace = [Op.reserve (0 * 2)]
    ∧ (testType impl C T e).1.vector = (phaseA impl C T e Run.start).vector
    ∧ (testType impl C T e).1.vector.size = 0
    ∧ (testType impl C T e).1.vector.capacity = (StdVector.empty : StdVector α).capacity := by
  have hA : phaseA impl C T e Run.start = Run.start :=
    phaseA_skip impl C T e (by simp [C, canWork, hc]) _
  have hgB : (!C.disableAllCases && (canWork T || !C.enableFailingCases)) = true := by
    simp [C]
  have hB : (testType impl C T e).1 = ⟨StdVector.empty, [Op.reserve (0 * 2)]⟩ := by
    simp only [testType, hA, phaseB_run impl C T hgB]
    rfl
  refine ⟨hA, ?_, ?_, ?_, ?_⟩
  · rw [hB]
  · rw [hB, hA]; rfl
  · rw [hB]; rfl
  · rw [hB]

/-- C6, witness: `ImplicitlyMoveOnlyWithoutCopyable` with the growth policy of
libstdc++. -/
theorem default_config_move_only_type_witness :
    is_move_constructible ImplicitlyMoveOnlyWithoutCopyable = true
    ∧ is_copy_constructible ImplicitlyMoveOnlyWithoutCopyable = false
    ∧ (phaseA libstdcxx C ImplicitlyMoveOnlyWithoutCopyable () Run.start = Run.start
      ∧ (testType libstdcxx C ImplicitlyMoveOnlyWithoutCopyable ()).1.trace
          = [Op.reserve (0 * 2)]
      ∧ (testType libstdcxx C ImplicitlyMoveOnlyWithoutCopyable ()).1.vector
          = (phaseA libstdcxx C ImplicitlyMoveOnlyWithoutCopyable () Run.start).vector
      ∧ (testType libstdcxx C ImplicitlyMoveOnlyWithoutCopyable ()).1.vector.size = 0
      ∧ (testType libstdcxx C ImplicitlyMoveOnlyWithoutCopyable ()).1.vector.capacity
          = (StdVector.empty : StdVector Unit).capacity) :=
  ⟨by decide, by decide,
    default_config_move_only_type libstdcxx ImplicitlyMoveOnlyWithoutCopyable ()
      (by decide) (by decide)⟩

/-! ## The driver -/

/-- C8, counterexample: `LegacyCopyable` and `Experiment` have no move
constructor, so that an rvalue can only be duplicated by their copy
constructor, and `std::is_move_constructible` is true of both. -/
theorem copy_only_types_are_move_constructible :
    moveCtor LegacyCopyable = Candidate.absent
    ∧ cheapTransfer LegacyCopyable = false
    ∧ is_move_constructible LegacyCopyable = true
    ∧ moveCtor Experiment = Candidate.absent
    ∧ cheapTransfer Experiment = false
    ∧ is_move_constructible Experiment = true := by
  decide

/-- C8, amended: the relocatable fact `std::is_move_constructible<T>` is true
if and only if a `T` can be constructed from an rvalue of `T`: by a move
constructor that can be called (the cheap transfer), or, when no move
constructor takes part in overload resolution, by the copy constructor.  A type
that can only be duplicated from an rvalue, such as `LegacyCopyable` and
`Experiment`, is therefore classified relocatable. -/
theorem is_move_constructible_iff (T : Ty) :
    is_move_constructible T
      = (cheapTransfer T
          || (decide (moveCtor T = Candidate.absent) && is_copy_constructible T))
    ∧ is_move_constructible LegacyCopyable = true
    ∧ is_move_constructible Experiment = true := by
  refine ⟨?_, by decide, by decide⟩
  cases T with
  | scalar n => rfl
  | cls n sm ms =>
    have key : ∀ (c : Candidate) (d b : Bool),
        (d && (match c with
              | Candidate.usable => true
              | Candidate.deleted => false
              | Candidate.absent => b))
          = (d && decide (c = Candidate.usable) || decide (c = Candidate.absent) && (d && b)) := by
      intro c d b
      cases c <;> cases d <;> cases b <;> rfl
    simp only [is_move_constructible, cheapTransfer, is_copy_constructible, moveCtor, moveInit,
      copyInit]
    exact key _ _ _

/-! ## The effect of Phase B -/

/-- C9: whenever Phase B is performed it leaves the contents of the vector
unchanged: the element count is the one before the request and the element at
every index is the one that was there.  For a whole run the contents at the end
are those Phase A produced, 100 elements when Phase A was performed; and
elements are relocated by the request only for a type that is copy-constructible
and move-constructible. -/
theorem phaseB_keeps_contents {α : Type} (impl : VectorImpl) (cfg : Config) (T : Ty)
    (e : α) (r : Run α)
    (h : (!cfg.disableAllCases
            && ((is_copy_constructible T && is_move_constructible T)
                || !cfg.enableFailingCases)) = true) :
    (phaseB impl cfg T r).vector.elems = r.vector.elems
    ∧ (phaseB impl cfg T r).vector.size = r.vector.size
    ∧ (∀ i : Nat, (phaseB impl cfg T r).vector.elems[i]? = r.vector.elems[i]?)
    ∧ (testType impl cfg T e).1.vector.elems = (phaseA impl cfg T e Run.start).vector.elems
    ∧ (testType impl cfg T e).1.vector.size
        = (if (!cfg.disableAllCases
                && ((is_copy_constructible T && is_move_constructible T)
                    || cfg.enableFailingCases)) = true
           then 100 else 0)
    ∧ ((phaseA impl cfg T e Run.start).vector.elems = []
        ∨ (is_copy_constructible T && is_move_constructible T) = true) := by
  have hE := phaseB_elems impl cfg T r
  have hF := phaseA_gate_facts impl cfg T e
    (!cfg.disableAllCases
      && ((is_copy_constructible T && is_move_constructible T) || cfg.enableFailingCases))
    rfl
  have hA := hF.2.2.1
  have hT := hF.2.2.2.2.2
  refine ⟨hE, ?_, ?_, ?_, ?_, ?_⟩
  · simp only [StdVector.size, hE]
  · intro i; rw [hE]
  · simp only [testType, phaseB_elems]
  · simp only [StdVector.size, hT]
    split <;> simp
  · rw [hA]
    cases hw : (is_copy_constructible T && is_move_constructible T)
    · left
      rw [hw] at h
      have hf : cfg.enableFailingCases = false := by
        cases hf : cfg.enableFailingCases
        · rfl
        · simp [hf] at h
      simp [hf]
    · right; rfl

/-- C9, witness: `LegacyCopyable` under the configuration of the file, on a
vector holding three elements in a store of capacity four. -/
theorem phaseB_keeps_contents_witness :
    (!C.disableAllCases
        && ((is_copy_constructible LegacyCopyable && is_move_constructible LegacyCopyable)
            || !C.enableFailingCases)) = true
    ∧ ((phaseB libstdcxx C LegacyCopyable ⟨⟨[1, 2, 3], 4⟩, []⟩).vector.elems
          = (⟨⟨[1, 2, 3], 4⟩, []⟩ : Run Nat).vector.elems
      ∧ (phaseB libstdcxx C LegacyCopyable ⟨⟨[1, 2, 3], 4⟩, []⟩).vector.size
          = (⟨⟨[1, 2, 3], 4⟩, []⟩ : Run Nat).vector.size
      ∧ (∀ i : Nat, (phaseB libstdcxx C LegacyCopyable ⟨⟨[1, 2, 3], 4⟩, []⟩).vector.elems[i]?
          = (⟨⟨[1, 2, 3], 4⟩, []⟩ : Run Nat).vector.elems[i]?)
      ∧ (testType libstdcxx C LegacyCopyable 0).1.vector.elems
          = (phaseA libstdcxx C LegacyCopyable 0 Run.start).vector.elems
      ∧ (testType libstdcxx C LegacyCopyable 0).1.vector.size
          = (if (!C.disableAllCases
                  && ((is_copy_constructible LegacyCopyable
                        && is_move_constructible LegacyCopyable)
                      || C.enableFailingCases)) = true
             then 100 else 0)
      ∧ ((phaseA libstdcxx C LegacyCopyable 0 Run.start).vector.elems = []
          ∨ (is_copy_constructible LegacyCopyable
              && is_move_constructible LegacyCopyable) = true)) :=
  ⟨by decide,
    phaseB_keeps_contents libstdcxx C LegacyCopyable 0 ⟨⟨[1, 2, 3], 4⟩, []⟩ (by decide)⟩

/-- C10, counterexample: under the configuration of the file Phase B is
performed on `ImplicitlyMoveOnlyWithoutCopyable`; the capacity is 0 before the
request, the request is `reserve( 0 )`, and the capacity is 0 after it. -/
theorem phaseB_keeps_capacity_of_empty_vector :
    (!C.disableAllCases
        && ((is_copy_constructible ImplicitlyMoveOnlyWithoutCopyable
              && is_move_constructible ImplicitlyMoveOnlyWithoutCopyable)
            || !C.enableFailingCases)) = true
    ∧ (phaseA libstdcxx C ImplicitlyMoveOnlyWithoutCopyable () Run.start).vector.capacity = 0
    ∧ (testType libstdcxx C ImplicitlyMoveOnlyWithoutCopyable ()).1.trace = [Op.reserve 0]
    ∧ (testType libstdcxx C ImplicitlyMoveOnlyWithoutCopyable ()).1.vector.capacity = 0 := by
  decide

/-- C10, amended: whenever Phase B is performed the capacity after the request
`reserve( capacity() * 2 )` is never smaller than before; it is strictly
greater, and at least twice the capacity before, exactly when the capacity before
was not 0, which is the case whenever Phase A was performed.  On the empty
vector that a skipped Phase A leaves, the capacity stays 0. -/
theorem phaseB_capacity {α : Type} (impl : VectorImpl) (cfg : Config) (T : Ty)
    (e : α) (r : Run α)
    (h : (!cfg.disableAllCases
            && ((is_copy_constructible T && is_move_constructible T)
                || !cfg.enableFailingCases)) = true) :
    r.vector.capacity ≤ (phaseB impl cfg T r).vector.capacity
    ∧ r.vector.capacity * 2 ≤ (phaseB impl cfg T r).vector.capacity
    ∧ (r.vector.capacity < (phaseB impl cfg T r).vector.capacity ↔ 0 < r.vector.capacity)
    ∧ (if (!cfg.disableAllCases
              && ((is_copy_constructible T && is_move_constructible T)
                  || cfg.enableFailingCases)) = true
        then (phaseA impl cfg T e Run.start).vector.capacity
              < (testType impl cfg T e).1.vector.capacity
        else (testType impl cfg T e).1.vector.capacity = 0) := by
  have hcap : ∀ r : Run α, r.vector.capacity ≤ (phaseB impl cfg T r).vector.capacity
      ∧ r.vector.capacity * 2 ≤ (phaseB impl cfg T r).vector.capacity := by
    intro r
    rw [phaseB_run impl cfg T h r]
    exact StdVector.reserve_capacity_ge impl r.vector (r.vector.capacity * 2)
  have hzero : ∀ r : Run α, r.vector.capacity = 0 → (phaseB impl cfg T r).vector.capacity = 0 := by
    intro r hr
    rw [phaseB_run impl cfg T h r]
    show (r.vector.reserve impl (r.vector.capacity * 2)).capacity = 0
    rw [StdVector.reserve_noop impl r.vector _ (by omega)]
    exact hr
  refine ⟨(hcap r).1, (hcap r).2, ?_, ?_⟩
  · constructor
    · intro hlt
      by_contra hn
      have h0 : r.vector.capacity = 0 := by omega
      have := hzero r h0
      omega
    · intro hpos
      have := (hcap r).2
      omega
  · split
    · rename_i hg
      have hA := phaseA_run impl cfg T e hg
      have hsz : (phaseA impl cfg T e Run.start).vector.size = 100 := by
        simp [StdVector.size, hA.1]
      have := (hcap (phaseA impl cfg T e Run.start)).2
      have := hA.2.2
      simp only [testType]
      omega
    · rename_i hg
      have hg2 : (!cfg.disableAllCases && (canWork T || cfg.enableFailingCases)) = false := by
        simpa [canWork] using hg
      simp only [testType, phaseA_skip impl cfg T e hg2]
      exact hzero Run.start rfl

/-- C10, witness: `LegacyCopyable` under the configuration of the file, on a
vector holding three elements in a store of capacity four. -/
theorem phaseB_capacity_witness :
    (!C.disableAllCases
        && ((is_copy_constructible LegacyCopyable && is_move_constructible LegacyCopyable)
            || !C.enableFailingCases)) = true
    ∧ ((⟨⟨[1, 2, 3], 4⟩, []⟩ : Run Nat).vector.capacity
          ≤ (phaseB libstdcxx C LegacyCopyable ⟨⟨[1, 2, 3], 4⟩, []⟩).vector.capacity
      ∧ (⟨⟨[1, 2, 3], 4⟩, []⟩ : Run Nat).vector.capacity * 2
          ≤ (phaseB libstdcxx C LegacyCopyable ⟨⟨[1, 2, 3], 4⟩, []⟩).vector.capacity
      ∧ ((⟨⟨[1, 2, 3], 4⟩, []⟩ : Run Nat).vector.capacity
            < (phaseB libstdcxx C LegacyCopyable ⟨⟨[1, 2, 3], 4⟩, []⟩).vector.capacity
          ↔ 0 < (⟨⟨[1, 2, 3], 4⟩, []⟩ : Run Nat).vector.capacity)
      ∧ (if (!C.disableAllCases
                && ((is_copy_constructible LegacyCopyable
                      && is_move_constructible LegacyCopyable)
                    || C.enableFailingCases)) = true
          then (phaseA libstdcxx C LegacyCopyable 0 Run.start).vector.capacity
                < (testType libstdcxx C LegacyCopyable 0).1.vector.capacity
          else (testType libstdcxx C LegacyCopyable 0).1.vector.capacity = 0)) :=
  ⟨by decide,
    phaseB_capacity libstdcxx C LegacyCopyable 0 ⟨⟨[1, 2, 3], 4⟩, []⟩ (by decide)⟩

end MoveSemanticsDemo
